import Mathlib

/-!
Verification of the anemia-management decision engine.

The definitions below are a shallow embedding of `src/utils/decisionEngine.ts`
(the four stage evaluators) and of the workup-checklist toggle in
`src/App.tsx`.  TypeScript `number | ''` fields become `Option ℚ`
(`none` is the unset sentinel `''`), nullable enums become `Option`,
booleans stay `Bool`, and the `DecisionResult` record is copied field by
field with its optional members as `Option`.
-/

/-- `PatientGroup` enum from `src/types` (dialysis-modality cohort). -/
inductive PatientGroup where
  | HD
  | PD
  | ND_CKD
deriving DecidableEq, Repr

/-- `Gender` enum from `src/types`. -/
inductive Gender where
  | Male
  | Female
deriving DecidableEq, Repr

/-- Treatment-route preference, the `'Oral' | 'Injection'` union in `src/types`. -/
inductive Preference where
  | Oral
  | Injection
deriving DecidableEq, Repr

/-- The `PatientState` record from `src/types`, the sole input snapshot. -/
structure PatientState where
  group : Option PatientGroup
  gender : Option Gender
  hb : Option ℚ
  ferritin : Option ℚ
  tsat : Option ℚ
  serumIron : Option ℚ
  tibc : Option ℚ
  hasActiveInfection : Bool
  workupAllNegative : Bool
  workupSmear : Bool
  workupHemolysis : Bool
  workupInflammation : Bool
  workupB12Folate : Bool
  workupLiver : Bool
  workupThyroid : Bool
  workupParathyroid : Bool
  workupMyeloma : Bool
  workupParasites : Bool
  currentStrokeOrThrombosis : Bool
  isPregnant : Bool
  activeMalignancy : Bool
  historyOfCancer : Bool
  polycysticKidneyDisease : Bool
  proliferativeRetinalDisease : Bool
  pulmonaryArterialHypertension : Bool
  hepaticImpairment : Bool
  priorCVEvents : Bool
  priorThromboembolicEvents : Bool
  esaIntolerance : Bool
  esaHyporesponsive : Bool
  highCRP : Bool
  accessToRefrigeration : Bool
  preference : Option Preference
deriving DecidableEq, Repr

/-- Control-flow status of a `DecisionResult` (`'continue' | 'stop' | 'action_required'`). -/
inductive DRStatus where
  | cont
  | stop
  | action_required
deriving DecidableEq, Repr

/-- Severity classification of a `DecisionResult` (`'urgent' | 'treatment' | 'info'`). -/
inductive RecType where
  | urgent
  | treatment
  | info
deriving DecidableEq, Repr

/-- The `DecisionResult` record from `src/types`, the sole output entity. -/
structure DecisionResult where
  status : DRStatus
  title : String
  message : String
  details : Option (List String) := none
  recommendationType : Option RecType := none
deriving DecidableEq, Repr

/-- The insufficient-data result of `evaluateScreening`. -/
def dataEntryResult : DecisionResult :=
  { status := .cont, title := "Data Entry", message := "Please enter patient data." }

/-- The not-anemic result of `evaluateScreening`, echoing the thresholds and
the measured hemoglobin. -/
def noAnemiaResult (hb : ℚ) : DecisionResult :=
  { status := .stop
    title := "No Anemia Detected"
    message := "The patient does not meet the KDIGO criteria for anemia diagnosis."
    details := some
      ["Male Threshold: < 13 g/dL",
       "Female Threshold: < 12 g/dL",
       "Patient Hb: " ++ toString hb ++ " g/dL"]
    recommendationType := some .treatment }

/-- The anemic result of `evaluateScreening`. -/
def anemiaDiagnosedResult (hb : ℚ) : DecisionResult :=
  { status := .cont
    title := "Anemia Diagnosed"
    message := "Hemoglobin levels indicate anemia. Proceed to Iron Therapy Assessment."
    details := some ["Patient Hb: " ++ toString hb ++ " g/dL"]
    recommendationType := some .urgent }

/-- `evaluateScreening` from `src/utils/decisionEngine.ts`. -/
def evaluateScreening (data : PatientState) : DecisionResult :=
  match data.hb, data.gender with
  | none, _ => dataEntryResult
  | some _, none => dataEntryResult
  | some hb, some gender =>
      let isAnemic :=
        (gender = Gender.Male ∧ hb < 13) ∨ (gender = Gender.Female ∧ hb < 12)
      if isAnemic then anemiaDiagnosedResult hb
      else noAnemiaResult hb

/-- The empty insufficient-data result of `evaluateIronTherapy`. -/
def emptyIronResult : DecisionResult :=
  { status := .cont, title := "", message := "" }

/-- The severe-iron-deficiency (suspected occult bleeding) result of
`evaluateIronTherapy`, with the three referral lines. -/
def severeIronDeficiencyResult : DecisionResult :=
  { status := .stop
    title := "Severe Iron Deficiency Detected"
    message := "Ferritin is < 45 ng/ml. Suspect bleeding."
    details := some
      ["Urology referral: Assess for hematuria",
       "Gynecology referral: Assess for menstrual blood loss",
       "Gastroenterology referral: Assess for occult GI blood loss"]
    recommendationType := some .urgent }

/-- The hold-iron-therapy (active infection) result of `evaluateIronTherapy`. -/
def holdIronResult : DecisionResult :=
  { status := .stop
    title := "Hold Iron Therapy"
    message := "Iron therapy should be suspended during active infection."
    recommendationType := some .urgent }

/-- The iron-overload result of `evaluateIronTherapy`. -/
def ironOverloadResult : DecisionResult :=
  { status := .cont
    title := "Iron Stores Sufficient / High"
    message := "Iron parameters are above the upper limit for iron therapy."
    details := some
      ["Do NOT start iron.",
       "If currently on iron, withhold therapy.",
       "Proceed to investigate other causes (Stage 3)."]
    recommendationType := some .info }

/-- The start-iron-therapy result of `evaluateIronTherapy`, whose route,
rationale and monitoring interval depend on the cohort. -/
def startIronResult (group : PatientGroup) : DecisionResult :=
  { status := .action_required
    title := "Start Iron Therapy"
    message := "Recommended Route: "
      ++ (if group = PatientGroup.HD then "Intravenous (IV) Iron" else "Oral or Intravenous Iron")
    details := some
      [(if group = PatientGroup.HD then "Standard for HD patients."
        else "Based on patient values and preferences. Switch to IV if oral is ineffective or not tolerated."),
       "Monitor Hb, Ferritin, TSAT every "
         ++ (if group = PatientGroup.HD then "month" else "3 months") ++ "."]
    recommendationType := some .treatment }

/-- The no-initiation result of `evaluateIronTherapy`. -/
def ironSufficientResult : DecisionResult :=
  { status := .cont
    title := "Iron Sufficient"
    message := "Iron criteria for initiation not met. Proceed to Full Anemia Workup."
    recommendationType := some .info }

/-- `evaluateIronTherapy` from `src/utils/decisionEngine.ts`. -/
def evaluateIronTherapy (data : PatientState) : DecisionResult :=
  match data.ferritin, data.tsat, data.group with
  | none, _, _ => emptyIronResult
  | some _, none, _ => emptyIronResult
  | some _, some _, none => emptyIronResult
  | some ferritin, some tsat, some group =>
      if ferritin < 45 then severeIronDeficiencyResult
      else if data.hasActiveInfection then holdIronResult
      else if ferritin > 700 ∨ tsat ≥ 40 then ironOverloadResult
      else
        let startIron :=
          if group = PatientGroup.HD then
            ferritin ≤ 500 ∧ tsat ≤ 30
          else
            (ferritin < 100 ∧ tsat < 40) ∨ (ferritin ≥ 100 ∧ ferritin ≤ 300 ∧ tsat < 25)
        if startIron then startIronResult group
        else ironSufficientResult

/-- The `findings` list built inside `evaluateWorkup`: one fixed mapped message
per true finding flag, in declaration order. -/
def workupFindings (data : PatientState) : List String :=
  (if data.workupSmear then ["Peripheral blood smear abnormal: Refer to Hematology"] else []) ++
  (if data.workupHemolysis then ["Hemolysis (Haptoglobin/LDH): Refer to Hematology"] else []) ++
  (if data.workupInflammation then ["High CRP (Inflammation): Pursue and treat underlying disease"] else []) ++
  (if data.workupB12Folate then ["B12/Folate Deficiency: Treat deficiency"] else []) ++
  (if data.workupLiver then ["Liver Function abnormal: Refer to Hepatology"] else []) ++
  (if data.workupThyroid then ["Thyroid dysfunction (TSH): Refer to Endocrinology"] else []) ++
  (if data.workupParathyroid then ["Hyperparathyroidism (PTH): Treat hyperparathyroidism"] else []) ++
  (if data.workupMyeloma then ["Myeloma suspicion (M-protein/Light chains): Refer to Oncology"] else []) ++
  (if data.workupParasites then ["Parasites detected: Refer to Infectious Disease"] else [])

/-- The `hasSelection` disjunction at the top of `evaluateWorkup`. -/
def workupHasSelection (data : PatientState) : Bool :=
  data.workupAllNegative ||
  data.workupSmear ||
  data.workupHemolysis ||
  data.workupInflammation ||
  data.workupB12Folate ||
  data.workupLiver ||
  data.workupThyroid ||
  data.workupParathyroid ||
  data.workupMyeloma ||
  data.workupParasites

/-- The perform-screening-panel result of `evaluateWorkup`. -/
def performScreeningResult : DecisionResult :=
  { status := .action_required
    title := "Perform Full Anemia Screening"
    message := "Before diagnosing Renal Anemia, you must exclude other causes. Please perform the following tests and indicate results."
    recommendationType := some .info }

/-- The renal-anemia-diagnosis result of `evaluateWorkup`. -/
def renalAnemiaResult : DecisionResult :=
  { status := .cont
    title := "Diagnosis: Renal Anemia"
    message := "Other causes excluded and iron stores adequate. Proceed to ESA/HIF-PHI evaluation."
    recommendationType := some .treatment }

/-- The treat-underlying-cause result of `evaluateWorkup`, listing the mapped
messages of the true finding flags. -/
def treatUnderlyingCauseResult (findings : List String) : DecisionResult :=
  { status := .stop
    title := "Treat Underlying Cause"
    message := "Non-renal cause(s) identified. Address these issues before considering renal anemia treatment."
    details := some findings
    recommendationType := some .urgent }

/-- `evaluateWorkup` from `src/utils/decisionEngine.ts`. -/
def evaluateWorkup (data : PatientState) : DecisionResult :=
  if ¬ workupHasSelection data then performScreeningResult
  else if data.workupAllNegative then renalAnemiaResult
  else treatUnderlyingCauseResult (workupFindings data)

/-- The `tier1FavorESA` list built inside `evaluateESA`: labels of the nine
Tier-1 clinical-history conditions that are true, in declaration order. -/
def tier1FavorESA (data : PatientState) : List String :=
  (if data.isPregnant then ["Pregnancy"] else []) ++
  (if data.activeMalignancy then ["Active malignancy"] else []) ++
  (if data.historyOfCancer then ["History of cancer (not in complete remission for 2-5 yr)"] else []) ++
  (if data.polycysticKidneyDisease then ["Polycystic kidney disease"] else []) ++
  (if data.proliferativeRetinalDisease then ["Proliferative retinal disease"] else []) ++
  (if data.pulmonaryArterialHypertension then ["Pulmonary arterial hypertension"] else []) ++
  (if data.hepaticImpairment then ["Hepatic impairment"] else []) ++
  (if data.priorCVEvents then ["Prior CV events (Stroke/MI)"] else []) ++
  (if data.priorThromboembolicEvents then ["Prior thromboembolic events (DVT, vascular access thrombosis, PE)"] else [])

/-- The `tier2Reasons` list built inside `evaluateESA`. -/
def tier2Reasons (data : PatientState) : List String :=
  (if data.esaHyporesponsive then ["ESA Hyporesponsiveness"] else []) ++
  (if data.highCRP then ["High CRP (>0.3 mg/dl)"] else [])

/-- The `tier3Reasons` list built inside `evaluateESA`.  Note the source pushes
the refrigeration reason when `accessToRefrigeration` is FALSE. -/
def tier3Reasons (data : PatientState) : List String :=
  (if data.preference = some Preference.Oral then ["Patient prefers Oral medication"] else []) ++
  (if !data.accessToRefrigeration then ["No access to refrigeration"] else [])

/-- The Gate-0 observation-only result of `evaluateESA`. -/
def observationResult : DecisionResult :=
  { status := .stop
    title := "Observation Recommended"
    message := "Hb is currently above the typical threshold for initiating ESA (> 10 g/dL)."
    details := some
      ["Monitor Hb every 2-4 weeks.",
       "Initiation is typically considered when Hb < 10 g/dL."]
    recommendationType := some .info }

/-- The Gate-1 absolute-safety-hold result of `evaluateESA`. -/
def holdTherapyResult : DecisionResult :=
  { status := .stop
    title := "HOLD THERAPY"
    message := "Current stroke or thrombosis detected."
    details := some
      ["Hold ESA and HIF-PHI treatments immediately.",
       "Re-evaluate after stabilization."]
    recommendationType := some .urgent }

/-- The Tier-1 conflict (shared-decision-making) result of `evaluateESA`,
parameterised by the collected `tier1FavorESA` list. -/
def sdmConflictResult (t1 : List String) : DecisionResult :=
  { status := .stop
    title := "Shared Decision Making (SDM)"
    message := "Potential benefits and harms must be discussed carefully. Blood transfusion may be the only option."
    details := some
      (["Conflict Detected:",
        "- Patient has ESA Intolerance (contraindicates ESA).",
        "- Patient has conditions where HIF-PHI is typically not recommended:"] ++
       t1.map (fun r => "  ** " ++ r) ++
       ["Consider specialist consultation (Hematology/Nephrology)."])
    recommendationType := some .urgent }

/-- The Tier-1 favors-ESA result of `evaluateESA`. -/
def tier1ESAResult (t1 : List String) : DecisionResult :=
  { status := .stop
    title := "Recommendation: ESA"
    message := "Clinical history indicates ESA as the preferred choice."
    details := some
      (["Tier 1 Criteria (Favor ESA):"] ++ t1 ++
       ["HIF-PHI is generally not recommended or requires caution in these conditions.",
        "Use lowest effective dose."])
    recommendationType := some .treatment }

/-- The Tier-1 ESA-intolerance (favors HIF-PHI) result of `evaluateESA`. -/
def tier1HIFResult : DecisionResult :=
  { status := .stop
    title := "Recommendation: HIF-PHI"
    message := "Clinical history (ESA Intolerance) indicates HIF-PHI as the preferred choice."
    details := some
      ["Tier 1 Criteria (Favor HIF-PHI):",
       "Cannot tolerate ESA (allergy, high BP, clotting)",
       "Monitor Hb every 2-4 weeks."]
    recommendationType := some .treatment }

/-- The Tier-2 result of `evaluateESA`. -/
def tier2Result (t2 : List String) : DecisionResult :=
  { status := .stop
    title := "Recommendation: HIF-PHI"
    message := "Clinical status suggests HIF-PHI as the preferred alternative."
    details := some
      (["Tier 2 Criteria (Favor HIF-PHI):"] ++ t2 ++
       ["Discontinue if insufficient response after 3-4 months.",
        "Monitor Hb every 2-4 weeks."])
    recommendationType := some .treatment }

/-- The Tier-3 result of `evaluateESA`. -/
def tier3Result (t3 : List String) : DecisionResult :=
  { status := .stop
    title := "Recommendation: HIF-PHI"
    message := "Patient preferences or logistics favor HIF-PHI."
    details := some
      (["Tier 3 Criteria (Favor HIF-PHI):"] ++ t3 ++
       ["Discontinue if insufficient response after 3-4 months."])
    recommendationType := some .treatment }

/-- The default (standard-of-care ESA) result of `evaluateESA`. -/
def defaultESAResult : DecisionResult :=
  { status := .stop
    title := "Recommendation: ESA"
    message := "Standard First-line Therapy."
    details := some
      ["No specific Tier 1, 2, or 3 criteria triggered specific selection.",
       "ESA is the standard of care (IV/SC).",
       "Monitor Hb every 2-4 weeks.",
       "Do not maintain Hb >= 11.5 g/dL."]
    recommendationType := some .treatment }

/-- `evaluateESA` from `src/utils/decisionEngine.ts`. -/
def evaluateESA (data : PatientState) : DecisionResult :=
  match data.hb with
  | none => observationResult
  | some hb =>
      if 10 < hb then observationResult
      else if data.currentStrokeOrThrombosis then holdTherapyResult
      else
        let t1 := tier1FavorESA data
        if data.esaIntolerance ∧ 0 < t1.length then sdmConflictResult t1
        else if 0 < t1.length then tier1ESAResult t1
        else if data.esaIntolerance then tier1HIFResult
        else
          let t2 := tier2Reasons data
          if 0 < t2.length then tier2Result t2
          else
            let t3 := tier3Reasons data
            if 0 < t3.length then tier3Result t3
            else defaultESAResult

/-- The workup checklist keys handled by `toggleWorkupItem` in `src/App.tsx`. -/
inductive WorkupField where
  | allNegative
  | smear
  | hemolysis
  | inflammation
  | b12Folate
  | liver
  | thyroid
  | parathyroid
  | myeloma
  | parasites
deriving DecidableEq, Repr

/-- `{ ...prev, [field]: value }` for a workup checklist key. -/
def setWorkupField (f : WorkupField) (v : Bool) (p : PatientState) : PatientState :=
  match f with
  | .allNegative => { p with workupAllNegative := v }
  | .smear => { p with workupSmear := v }
  | .hemolysis => { p with workupHemolysis := v }
  | .inflammation => { p with workupInflammation := v }
  | .b12Folate => { p with workupB12Folate := v }
  | .liver => { p with workupLiver := v }
  | .thyroid => { p with workupThyroid := v }
  | .parathyroid => { p with workupParathyroid := v }
  | .myeloma => { p with workupMyeloma := v }
  | .parasites => { p with workupParasites := v }

/-- The state update performed by `toggleWorkupItem` in `src/App.tsx`
(the navigation side effects are presentation-layer and not modelled). -/
def toggleWorkupItem (f : WorkupField) (v : Bool) (p : PatientState) : PatientState :=
  let s := setWorkupField f v p
  let s :=
    if f = WorkupField.allNegative ∧ v = true then
      { s with workupSmear := false, workupHemolysis := false, workupInflammation := false,
               workupB12Folate := false, workupLiver := false, workupThyroid := false,
               workupParathyroid := false, workupMyeloma := false, workupParasites := false }
    else s
  if f ≠ WorkupField.allNegative ∧ v = true then { s with workupAllNegative := false } else s

/-- The mutual-exclusion invariant on workup flags: the all-excluded flag
implies that none of the nine finding flags is set. -/
def workupInvariant (p : PatientState) : Prop :=
  p.workupAllNegative = true →
    (p.workupSmear = false ∧ p.workupHemolysis = false ∧ p.workupInflammation = false ∧
     p.workupB12Folate = false ∧ p.workupLiver = false ∧ p.workupThyroid = false ∧
     p.workupParathyroid = false ∧ p.workupMyeloma = false ∧ p.workupParasites = false)

instance (p : PatientState) : Decidable (workupInvariant p) := by
  unfold workupInvariant; infer_instance

/-- `initialPatientState` from `src/App.tsx`: all numerics unset, all flags
false except `accessToRefrigeration`, which starts true. -/
def initialPatientState : PatientState :=
  { group := none, gender := none, hb := none, ferritin := none, tsat := none,
    serumIron := none, tibc := none,
    hasActiveInfection := false,
    workupAllNegative := false, workupSmear := false, workupHemolysis := false,
    workupInflammation := false, workupB12Folate := false, workupLiver := false,
    workupThyroid := false, workupParathyroid := false, workupMyeloma := false,
    workupParasites := false,
    currentStrokeOrThrombosis := false, isPregnant := false, activeMalignancy := false,
    historyOfCancer := false, polycysticKidneyDisease := false,
    proliferativeRetinalDisease := false, pulmonaryArterialHypertension := false,
    hepaticImpairment := false, priorCVEvents := false, priorThromboembolicEvents := false,
    esaIntolerance := false, esaHyporesponsive := false, highCRP := false,
    accessToRefrigeration := true, preference := none }

/-! ## Theorems -/

/-- C3: with ferritin, TSAT and cohort present and ferritin ≥ 45, an active
infection always forces the hold-iron-therapy result (`stop`/`urgent`),
regardless of the ferritin/TSAT values and the cohort. -/
theorem evaluateIronTherapy_infection_holds (data : PatientState) (f t : ℚ) (g : PatientGroup)
    (hf : data.ferritin = some f) (ht : data.tsat = some t) (hg : data.group = some g)
    (h45 : 45 ≤ f) (hinf : data.hasActiveInfection = true) :
    evaluateIronTherapy data = holdIronResult ∧
    holdIronResult.status = DRStatus.stop ∧
    holdIronResult.recommendationType = some RecType.urgent := by
  refine ⟨?_, rfl, rfl⟩
  simp only [evaluateIronTherapy, hf, ht, hg]
  rw [if_neg (not_lt.2 h45), if_pos hinf]

/-- C3 witness: hemodialysis patient with ferritin 800 and TSAT 50 (overload
range) and an active infection still gets the hold-iron result. -/
theorem evaluateIronTherapy_infection_holds_witness :
    (45 : ℚ) ≤ 800 ∧
    evaluateIronTherapy
      { initialPatientState with
        ferritin := some 800
        tsat := some 50
        group := some PatientGroup.HD
        hasActiveInfection := true } = holdIronResult :=
  ⟨by decide,
   (evaluateIronTherapy_infection_holds _ 800 50 PatientGroup.HD rfl rfl rfl (by decide) rfl).1⟩

/-- C4: with ferritin, TSAT and cohort present, the suspected-occult-bleeding
result (with the three referral lines) is returned exactly when
ferritin < 45 strictly, and it wins over every other rule. -/
theorem evaluateIronTherapy_bleeding_iff (data : PatientState) (f t : ℚ) (g : PatientGroup)
    (hf : data.ferritin = some f) (ht : data.tsat = some t) (hg : data.group = some g) :
    (evaluateIronTherapy data = severeIronDeficiencyResult ↔ f < 45) ∧
    severeIronDeficiencyResult.status = DRStatus.stop ∧
    severeIronDeficiencyResult.recommendationType = some RecType.urgent ∧
    "Urology referral: Assess for hematuria" ∈ severeIronDeficiencyResult.details.getD [] ∧
    "Gynecology referral: Assess for menstrual blood loss" ∈ severeIronDeficiencyResult.details.getD [] ∧
    "Gastroenterology referral: Assess for occult GI blood loss" ∈ severeIronDeficiencyResult.details.getD [] := by
  refine ⟨?_, rfl, rfl, by decide, by decide, by decide⟩
  simp only [evaluateIronTherapy, hf, ht, hg]
  by_cases h45 : f < 45
  · simp [h45]
  · rw [if_neg h45]
    refine iff_of_false ?_ h45
    split_ifs <;>
      exact fun heq => absurd (congrArg DecisionResult.title heq)
        (by simp [holdIronResult, ironOverloadResult, startIronResult, ironSufficientResult,
                  severeIronDeficiencyResult])

/-- C4 witness: ferritin 44.99 fires the bleeding rule even with an active
infection; ferritin exactly 45 does not fire it. -/
theorem evaluateIronTherapy_bleeding_iff_witness :
    evaluateIronTherapy
      { initialPatientState with
        ferritin := some (mkRat 4499 100)
        tsat := some 20
        group := some PatientGroup.HD
        hasActiveInfection := true } = severeIronDeficiencyResult ∧
    ¬ (evaluateIronTherapy
      { initialPatientState with
        ferritin := some 45
        tsat := some 20
        group := some PatientGroup.HD } = severeIronDeficiencyResult) :=
  ⟨(evaluateIronTherapy_bleeding_iff _ (mkRat 4499 100) 20 PatientGroup.HD rfl rfl rfl).1.mpr
     (by decide),
   fun h => absurd ((evaluateIronTherapy_bleeding_iff _ 45 20 PatientGroup.HD rfl rfl rfl).1.mp h)
     (by decide)⟩

/-- C5: in the hemodialysis cohort, with ferritin ≥ 45, no active infection,
ferritin ≤ 700 and TSAT < 40, IV-iron initiation (`action_required` /
`treatment`, with the monthly monitoring detail) happens exactly when
ferritin ≤ 500 and TSAT ≤ 30; otherwise the `continue` no-initiation result
is returned. -/
theorem evaluateIronTherapy_HD_initiation (data : PatientState) (f t : ℚ)
    (hf : data.ferritin = some f) (ht : data.tsat = some t)
    (hg : data.group = some PatientGroup.HD)
    (h45 : 45 ≤ f) (hinf : data.hasActiveInfection = false)
    (h700 : f ≤ 700) (h40 : t < 40) :
    (evaluateIronTherapy data = startIronResult PatientGroup.HD ↔ (f ≤ 500 ∧ t ≤ 30)) ∧
    (¬ (f ≤ 500 ∧ t ≤ 30) → evaluateIronTherapy data = ironSufficientResult) ∧
    (startIronResult PatientGroup.HD).status = DRStatus.action_required ∧
    (startIronResult PatientGroup.HD).recommendationType = some RecType.treatment ∧
    "Monitor Hb, Ferritin, TSAT every month." ∈ (startIronResult PatientGroup.HD).details.getD [] ∧
    ironSufficientResult.status = DRStatus.cont := by
  have hov : ¬ (f > 700 ∨ t ≥ 40) := by
    push_neg
    exact ⟨h700, h40⟩
  have hbase :
      evaluateIronTherapy data =
        if f ≤ 500 ∧ t ≤ 30 then startIronResult PatientGroup.HD else ironSufficientResult := by
    simp only [evaluateIronTherapy, hf, ht, hg]
    rw [if_neg (not_lt.2 h45), if_neg (by simp [hinf]), if_neg hov]
    simp
  refine ⟨?_, ?_, rfl, rfl, by decide, rfl⟩
  · rw [hbase]
    by_cases hc : f ≤ 500 ∧ t ≤ 30
    · simp [hc]
    · rw [if_neg hc]
      exact iff_of_false (fun heq => absurd (congrArg DecisionResult.title heq) (by decide)) hc
  · intro hc
    rw [hbase, if_neg hc]

/-- C5 witness: ferritin 500 with TSAT 30 initiates IV iron; ferritin 501
(same TSAT) returns the no-initiation result. -/
theorem evaluateIronTherapy_HD_initiation_witness :
    evaluateIronTherapy
      { initialPatientState with
        ferritin := some 500
        tsat := some 30
        group := some PatientGroup.HD } = startIronResult PatientGroup.HD ∧
    evaluateIronTherapy
      { initialPatientState with
        ferritin := some 501
        tsat := some 30
        group := some PatientGroup.HD } = ironSufficientResult :=
  ⟨(evaluateIronTherapy_HD_initiation _ 500 30 rfl rfl rfl (by decide) rfl (by decide)
      (by decide)).1.mpr (by decide),
   (evaluateIronTherapy_HD_initiation _ 501 30 rfl rfl rfl (by decide) rfl (by decide)
      (by decide)).2.1 (by decide)⟩

/-- C6: with hemoglobin and sex present, anemia is classified exactly by the
threshold rule (< 13 male, < 12 female); when not anemic the result is
`stop`/`treatment` with both thresholds and the measured hemoglobin echoed in
the detail list, and when anemic it is `continue`/`urgent`. -/
theorem evaluateScreening_threshold (data : PatientState) (h : ℚ) (g : Gender)
    (hhb : data.hb = some h) (hg : data.gender = some g) :
    evaluateScreening data =
      (if (g = Gender.Male ∧ h < 13) ∨ (g = Gender.Female ∧ h < 12)
       then anemiaDiagnosedResult h else noAnemiaResult h) ∧
    (noAnemiaResult h).status = DRStatus.stop ∧
    (noAnemiaResult h).recommendationType = some RecType.treatment ∧
    "Male Threshold: < 13 g/dL" ∈ (noAnemiaResult h).details.getD [] ∧
    "Female Threshold: < 12 g/dL" ∈ (noAnemiaResult h).details.getD [] ∧
    ("Patient Hb: " ++ toString h ++ " g/dL") ∈ (noAnemiaResult h).details.getD [] ∧
    (anemiaDiagnosedResult h).status = DRStatus.cont ∧
    (anemiaDiagnosedResult h).recommendationType = some RecType.urgent := by
  refine ⟨?_, rfl, rfl, ?_, ?_, ?_, rfl, rfl⟩
  · simp only [evaluateScreening, hhb, hg]
  · simp [noAnemiaResult]
  · simp [noAnemiaResult]
  · simp [noAnemiaResult]

/-- C6 witness: a male patient with hemoglobin exactly 13.0 is not anemic and
gets the `stop`/`treatment` echo result; a female patient with hemoglobin
11.9 is anemic and gets the `continue`/`urgent` result. -/
theorem evaluateScreening_threshold_witness :
    evaluateScreening
      { initialPatientState with
        hb := some 13
        gender := some Gender.Male } = noAnemiaResult 13 ∧
    evaluateScreening
      { initialPatientState with
        hb := some (mkRat 119 10)
        gender := some Gender.Female } = anemiaDiagnosedResult (mkRat 119 10) := by
  constructor
  · have := (evaluateScreening_threshold
      { initialPatientState with
        hb := some 13
        gender := some Gender.Male } 13 Gender.Male rfl rfl).1
    rw [this, if_neg (by decide)]
  · have := (evaluateScreening_threshold
      { initialPatientState with
        hb := some (mkRat 119 10)
        gender := some Gender.Female } (mkRat 119 10) Gender.Female rfl rfl).1
    rw [this, if_pos (by decide)]

lemma evaluateESA_observation_aux (data : PatientState) :
    evaluateESA data = observationResult ↔
      (data.hb = none ∨ ∃ h : ℚ, data.hb = some h ∧ 10 < h) := by
  cases hhb : data.hb with
  | none => simp [evaluateESA, hhb]
  | some h =>
      simp only [evaluateESA, hhb]
      by_cases h10 : 10 < h
      · rw [if_pos h10]
        simp [h10]
      · rw [if_neg h10]
        refine iff_of_false ?_ (by simp [h10])
        split_ifs <;>
          exact fun heq => absurd (congrArg DecisionResult.title heq)
            (by simp [holdTherapyResult, sdmConflictResult, tier1ESAResult, tier1HIFResult,
                      tier2Result, tier3Result, defaultESAResult, observationResult])

lemma evaluateESA_hold_aux (data : PatientState) :
    evaluateESA data = holdTherapyResult → ∃ h : ℚ, data.hb = some h ∧ h ≤ 10 := by
  cases hhb : data.hb with
  | none =>
      intro heq
      simp only [evaluateESA, hhb] at heq
      exact absurd (congrArg DecisionResult.title heq) (by decide)
  | some h =>
      by_cases h10 : 10 < h
      · intro heq
        simp only [evaluateESA, hhb] at heq
        rw [if_pos h10] at heq
        exact absurd (congrArg DecisionResult.title heq) (by decide)
      · intro _
        exact ⟨h, rfl, not_lt.1 h10⟩

/-- C7: `evaluateESA` returns the observation-only result (`stop`/`info`,
no tier evaluated) exactly when hemoglobin is unset or strictly greater
than 10; hemoglobin exactly 10 proceeds past Gate 0. -/
theorem evaluateESA_observation_iff (data : PatientState) :
    (evaluateESA data = observationResult ↔
      (data.hb = none ∨ ∃ h : ℚ, data.hb = some h ∧ 10 < h)) ∧
    observationResult.status = DRStatus.stop ∧
    observationResult.recommendationType = some RecType.info :=
  ⟨evaluateESA_observation_aux data, rfl, rfl⟩

/-- C7 witness: hemoglobin 10.01 triggers observation-only; hemoglobin
exactly 10.0 does not. -/
theorem evaluateESA_observation_iff_witness :
    evaluateESA { initialPatientState with hb := some (mkRat 1001 100) } = observationResult ∧
    ¬ (evaluateESA { initialPatientState with hb := some 10 } = observationResult) := by
  constructor
  · exact (evaluateESA_observation_iff
      { initialPatientState with hb := some (mkRat 1001 100) }).1.mpr
      (Or.inr ⟨mkRat 1001 100, rfl, by decide⟩)
  · intro heq
    rcases (evaluateESA_observation_iff
      { initialPatientState with hb := some 10 }).1.mp heq with h1 | ⟨h, hh, h10⟩
    · exact Option.noConfusion h1
    · rw [Option.some.injEq] at hh
      rw [← hh] at h10
      exact absurd h10 (by decide)

/-- C10 (implicit): the hemoglobin gate is evaluated before the absolute
safety hold: whenever hemoglobin is unset or above 10 the observation-only
result is returned even if `currentStrokeOrThrombosis` is true, and the
HOLD THERAPY result is reachable only when hemoglobin is set and ≤ 10. -/
theorem evaluateESA_gate0_precedes_hold (data : PatientState) :
    ((data.hb = none ∨ ∃ h : ℚ, data.hb = some h ∧ 10 < h) →
      evaluateESA data = observationResult) ∧
    (evaluateESA data = holdTherapyResult → ∃ h : ℚ, data.hb = some h ∧ h ≤ 10) :=
  ⟨fun hc => (evaluateESA_observation_aux data).mpr hc, evaluateESA_hold_aux data⟩

/-- C10 witness: with `currentStrokeOrThrombosis = true` the observation-only
result is still returned when hemoglobin is unset, and also when it is 11. -/
theorem evaluateESA_gate0_precedes_hold_witness :
    evaluateESA { initialPatientState with currentStrokeOrThrombosis := true } =
      observationResult ∧
    evaluateESA
      { initialPatientState with
        hb := some 11
        currentStrokeOrThrombosis := true } = observationResult :=
  ⟨(evaluateESA_gate0_precedes_hold
      { initialPatientState with currentStrokeOrThrombosis := true }).1 (Or.inl rfl),
   (evaluateESA_gate0_precedes_hold
      { initialPatientState with
        hb := some 11
        currentStrokeOrThrombosis := true }).1 (Or.inr ⟨11, rfl, by decide⟩)⟩

lemma tier1_mem_pregnant (data : PatientState) (h : data.isPregnant = true) :
    "Pregnancy" ∈ tier1FavorESA data := by simp [tier1FavorESA, h]

lemma tier1_mem_malignancy (data : PatientState) (h : data.activeMalignancy = true) :
    "Active malignancy" ∈ tier1FavorESA data := by simp [tier1FavorESA, h]

lemma tier1_mem_cancer (data : PatientState) (h : data.historyOfCancer = true) :
    "History of cancer (not in complete remission for 2-5 yr)" ∈ tier1FavorESA data := by
  simp [tier1FavorESA, h]

lemma tier1_mem_pkd (data : PatientState) (h : data.polycysticKidneyDisease = true) :
    "Polycystic kidney disease" ∈ tier1FavorESA data := by simp [tier1FavorESA, h]

lemma tier1_mem_retinal (data : PatientState) (h : data.proliferativeRetinalDisease = true) :
    "Proliferative retinal disease" ∈ tier1FavorESA data := by simp [tier1FavorESA, h]

lemma tier1_mem_pah (data : PatientState) (h : data.pulmonaryArterialHypertension = true) :
    "Pulmonary arterial hypertension" ∈ tier1FavorESA data := by simp [tier1FavorESA, h]

lemma tier1_mem_hepatic (data : PatientState) (h : data.hepaticImpairment = true) :
    "Hepatic impairment" ∈ tier1FavorESA data := by simp [tier1FavorESA, h]

lemma tier1_mem_cv (data : PatientState) (h : data.priorCVEvents = true) :
    "Prior CV events (Stroke/MI)" ∈ tier1FavorESA data := by simp [tier1FavorESA, h]

lemma tier1_mem_thromboembolic (data : PatientState) (h : data.priorThromboembolicEvents = true) :
    "Prior thromboembolic events (DVT, vascular access thrombosis, PE)" ∈ tier1FavorESA data := by
  simp [tier1FavorESA, h]

lemma mem_sdmConflict_details (l : List String) (s : String) (hs : s ∈ l) :
    ∀ ds, (sdmConflictResult l).details = some ds → ("  ** " ++ s) ∈ ds := by
  intro ds hds
  simp only [sdmConflictResult, Option.some.injEq] at hds
  rw [← hds]
  simp only [List.mem_append, List.mem_map]
  exact Or.inl (Or.inr ⟨s, hs, rfl⟩)

/-- C2: with hemoglobin set and ≤ 10 and no current stroke/thrombosis, if ESA
intolerance holds together with at least one of the nine Tier-1 flags,
`evaluateESA` returns the `stop`/`urgent` shared-decision-making conflict
result, whose detail list names every true Tier-1 flag, and not the plain
Tier-1-favors-ESA result. -/
theorem evaluateESA_conflict (data : PatientState) (h : ℚ)
    (hhb : data.hb = some h) (hle : h ≤ 10)
    (hstroke : data.currentStrokeOrThrombosis = false)
    (hintol : data.esaIntolerance = true)
    (hone : data.isPregnant = true ∨ data.activeMalignancy = true ∨
      data.historyOfCancer = true ∨ data.polycysticKidneyDisease = true ∨
      data.proliferativeRetinalDisease = true ∨ data.pulmonaryArterialHypertension = true ∨
      data.hepaticImpairment = true ∨ data.priorCVEvents = true ∨
      data.priorThromboembolicEvents = true) :
    evaluateESA data = sdmConflictResult (tier1FavorESA data) ∧
    (evaluateESA data).status = DRStatus.stop ∧
    (evaluateESA data).recommendationType = some RecType.urgent ∧
    (evaluateESA data).title = "Shared Decision Making (SDM)" ∧
    (evaluateESA data).title ≠ "Recommendation: ESA" ∧
    (∃ ds, (evaluateESA data).details = some ds ∧
      (data.isPregnant = true → "  ** Pregnancy" ∈ ds) ∧
      (data.activeMalignancy = true → "  ** Active malignancy" ∈ ds) ∧
      (data.historyOfCancer = true →
        "  ** History of cancer (not in complete remission for 2-5 yr)" ∈ ds) ∧
      (data.polycysticKidneyDisease = true → "  ** Polycystic kidney disease" ∈ ds) ∧
      (data.proliferativeRetinalDisease = true → "  ** Proliferative retinal disease" ∈ ds) ∧
      (data.pulmonaryArterialHypertension = true →
        "  ** Pulmonary arterial hypertension" ∈ ds) ∧
      (data.hepaticImpairment = true → "  ** Hepatic impairment" ∈ ds) ∧
      (data.priorCVEvents = true → "  ** Prior CV events (Stroke/MI)" ∈ ds) ∧
      (data.priorThromboembolicEvents = true →
        "  ** Prior thromboembolic events (DVT, vascular access thrombosis, PE)" ∈ ds)) := by
  have h1 : 0 < (tier1FavorESA data).length := by
    rcases hone with h' | h' | h' | h' | h' | h' | h' | h' | h'
    exacts [List.length_pos.mpr (List.ne_nil_of_mem (tier1_mem_pregnant data h')),
      List.length_pos.mpr (List.ne_nil_of_mem (tier1_mem_malignancy data h')),
      List.length_pos.mpr (List.ne_nil_of_mem (tier1_mem_cancer data h')),
      List.length_pos.mpr (List.ne_nil_of_mem (tier1_mem_pkd data h')),
      List.length_pos.mpr (List.ne_nil_of_mem (tier1_mem_retinal data h')),
      List.length_pos.mpr (List.ne_nil_of_mem (tier1_mem_pah data h')),
      List.length_pos.mpr (List.ne_nil_of_mem (tier1_mem_hepatic data h')),
      List.length_pos.mpr (List.ne_nil_of_mem (tier1_mem_cv data h')),
      List.length_pos.mpr (List.ne_nil_of_mem (tier1_mem_thromboembolic data h'))]
  have hmain : evaluateESA data = sdmConflictResult (tier1FavorESA data) := by
    simp only [evaluateESA, hhb]
    rw [if_neg (not_lt.2 hle), if_neg (by simp [hstroke]), if_pos ⟨hintol, h1⟩]
  refine ⟨hmain, by rw [hmain]; rfl, by rw [hmain]; rfl, by rw [hmain]; rfl,
    by rw [hmain]; simp [sdmConflictResult], ?_⟩
  refine ⟨_, by rw [hmain]; rfl, ?_, ?_, ?_, ?_, ?_, ?_, ?_, ?_, ?_⟩
  · exact fun hf => mem_sdmConflict_details _ _ (tier1_mem_pregnant data hf) _ rfl
  · exact fun hf => mem_sdmConflict_details _ _ (tier1_mem_malignancy data hf) _ rfl
  · exact fun hf => mem_sdmConflict_details _ _ (tier1_mem_cancer data hf) _ rfl
  · exact fun hf => mem_sdmConflict_details _ _ (tier1_mem_pkd data hf) _ rfl
  · exact fun hf => mem_sdmConflict_details _ _ (tier1_mem_retinal data hf) _ rfl
  · exact fun hf => mem_sdmConflict_details _ _ (tier1_mem_pah data hf) _ rfl
  · exact fun hf => mem_sdmConflict_details _ _ (tier1_mem_hepatic data hf) _ rfl
  · exact fun hf => mem_sdmConflict_details _ _ (tier1_mem_cv data hf) _ rfl
  · exact fun hf => mem_sdmConflict_details _ _ (tier1_mem_thromboembolic data hf) _ rfl

/-- Demonstration snapshot for the Tier-1 conflict: hemoglobin 9, ESA
intolerance and pregnancy both true, everything else at its initial value. -/
def conflictDemoState : PatientState :=
  { initialPatientState with hb := some 9, esaIntolerance := true, isPregnant := true }

/-- C2 witness: ESA intolerance together with pregnancy yields the conflict
result listing pregnancy, not the plain Tier-1-favors-ESA result. -/
theorem evaluateESA_conflict_witness :
    evaluateESA conflictDemoState = sdmConflictResult ["Pregnancy"] ∧
    (evaluateESA conflictDemoState).title ≠ "Recommendation: ESA" := by
  have h := evaluateESA_conflict conflictDemoState 9 rfl (by decide) rfl rfl (Or.inl rfl)
  refine ⟨by rw [h.1]; decide, h.2.2.2.2.1⟩

/-- Snapshot with hemoglobin 9 and every boolean flag false (including
`accessToRefrigeration`), preference unset. -/
def allFlagsFalseHb9 : PatientState :=
  { initialPatientState with hb := some 9, accessToRefrigeration := false }

/-- C1 counterexample: with every boolean flag false — in particular
`accessToRefrigeration = false` — `evaluateESA` returns the Tier-3 HIF-PHI
result (reason: no access to refrigeration), not the default ESA
recommendation, because the source pushes the Tier-3 refrigeration reason
when `accessToRefrigeration` is false. -/
theorem evaluateESA_no_fridge_tier3 :
    evaluateESA allFlagsFalseHb9 = tier3Result ["No access to refrigeration"] ∧
    evaluateESA allFlagsFalseHb9 ≠ defaultESAResult ∧
    (evaluateESA allFlagsFalseHb9).title = "Recommendation: HIF-PHI" := by decide

/-- C1 (amended): with hemoglobin set and ≤ 10, no current stroke/thrombosis,
all nine Tier-1 flags false, ESA intolerance, hyporesponsiveness and high CRP
false, `accessToRefrigeration` TRUE (refrigeration available, so the Tier-3
logistics reason does not fire) and preference unset, `evaluateESA` returns
the default recommendation: ESA as standard of care, `stop`/`treatment`,
with the monitoring-cadence detail and the upper hemoglobin ceiling
instruction. -/
theorem evaluateESA_default_of_quiescent (data : PatientState) (h : ℚ)
    (hhb : data.hb = some h) (hle : h ≤ 10)
    (hstroke : data.currentStrokeOrThrombosis = false)
    (hpreg : data.isPregnant = false) (hmal : data.activeMalignancy = false)
    (hcan : data.historyOfCancer = false) (hpkd : data.polycysticKidneyDisease = false)
    (hret : data.proliferativeRetinalDisease = false)
    (hpah : data.pulmonaryArterialHypertension = false)
    (hhep : data.hepaticImpairment = false) (hcv : data.priorCVEvents = false)
    (hthr : data.priorThromboembolicEvents = false)
    (hintol : data.esaIntolerance = false) (hhyp : data.esaHyporesponsive = false)
    (hcrp : data.highCRP = false) (hfridge : data.accessToRefrigeration = true)
    (hpref : data.preference = none) :
    evaluateESA data = defaultESAResult ∧
    defaultESAResult.status = DRStatus.stop ∧
    defaultESAResult.recommendationType = some RecType.treatment ∧
    defaultESAResult.title = "Recommendation: ESA" ∧
    "Monitor Hb every 2-4 weeks." ∈ defaultESAResult.details.getD [] ∧
    "Do not maintain Hb >= 11.5 g/dL." ∈ defaultESAResult.details.getD [] := by
  have ht1 : tier1FavorESA data = [] := by
    simp [tier1FavorESA, hpreg, hmal, hcan, hpkd, hret, hpah, hhep, hcv, hthr]
  have ht2 : tier2Reasons data = [] := by simp [tier2Reasons, hhyp, hcrp]
  have ht3 : tier3Reasons data = [] := by simp [tier3Reasons, hfridge, hpref]
  refine ⟨?_, rfl, rfl, rfl, by decide, by decide⟩
  simp only [evaluateESA, hhb]
  rw [if_neg (not_lt.2 hle), if_neg (by simp [hstroke]),
    if_neg (by simp [hintol]), if_neg (by simp [ht1]), if_neg (by simp [hintol]),
    if_neg (by simp [ht2]), if_neg (by simp [ht3])]

/-- C1 witness: hemoglobin 9 with all flags quiescent and refrigeration
available yields the default ESA recommendation. -/
theorem evaluateESA_default_of_quiescent_witness :
    (9 : ℚ) ≤ 10 ∧
    evaluateESA { initialPatientState with hb := some 9 } = defaultESAResult :=
  ⟨by decide,
   (evaluateESA_default_of_quiescent { initialPatientState with hb := some 9 } 9
     rfl (by decide) rfl rfl rfl rfl rfl rfl rfl rfl rfl rfl rfl rfl rfl rfl rfl).1⟩

/-- C8: the Workup evaluator returns the `action_required`/`info`
perform-panel result when all ten flags are false, the `continue`/`treatment`
renal-anemia result whenever the all-excluded flag is true, and otherwise the
`stop`/`urgent` result whose detail list is exactly the fixed mapped message
of each true finding flag, in declaration order. -/
theorem evaluateWorkup_cases (data : PatientState) :
    ((data.workupAllNegative = false ∧ data.workupSmear = false ∧
      data.workupHemolysis = false ∧ data.workupInflammation = false ∧
      data.workupB12Folate = false ∧ data.workupLiver = false ∧
      data.workupThyroid = false ∧ data.workupParathyroid = false ∧
      data.workupMyeloma = false ∧ data.workupParasites = false) →
      evaluateWorkup data = performScreeningResult) ∧
    (data.workupAllNegative = true → evaluateWorkup data = renalAnemiaResult) ∧
    ((workupHasSelection data = true ∧ data.workupAllNegative = false) →
      evaluateWorkup data = treatUnderlyingCauseResult (workupFindings data)) ∧
    performScreeningResult.status = DRStatus.action_required ∧
    performScreeningResult.recommendationType = some RecType.info ∧
    renalAnemiaResult.status = DRStatus.cont ∧
    renalAnemiaResult.recommendationType = some RecType.treatment ∧
    (treatUnderlyingCauseResult (workupFindings data)).status = DRStatus.stop ∧
    (treatUnderlyingCauseResult (workupFindings data)).recommendationType = some RecType.urgent := by
  refine ⟨?_, ?_, ?_, rfl, rfl, rfl, rfl, rfl, rfl⟩
  · rintro ⟨h0, h1, h2, h3, h4, h5, h6, h7, h8, h9⟩
    simp [evaluateWorkup, workupHasSelection, h0, h1, h2, h3, h4, h5, h6, h7, h8, h9]
  · intro h0
    simp [evaluateWorkup, workupHasSelection, h0]
  · rintro ⟨hsel, h0⟩
    simp [evaluateWorkup, hsel, h0]

/-- C8 witness: all flags false demands the panel; all-excluded true gives
the renal-anemia diagnosis; thyroid plus parasites true gives the
`stop`/`urgent` result listing exactly their two mapped messages in order. -/
theorem evaluateWorkup_cases_witness :
    evaluateWorkup initialPatientState = performScreeningResult ∧
    evaluateWorkup { initialPatientState with workupAllNegative := true } = renalAnemiaResult ∧
    evaluateWorkup
      { initialPatientState with
        workupThyroid := true
        workupParasites := true } =
      treatUnderlyingCauseResult
        ["Thyroid dysfunction (TSH): Refer to Endocrinology",
         "Parasites detected: Refer to Infectious Disease"] := by
  refine ⟨(evaluateWorkup_cases initialPatientState).1 (by decide), ?_, ?_⟩
  · exact (evaluateWorkup_cases
      { initialPatientState with workupAllNegative := true }).2.1 rfl
  · have h := (evaluateWorkup_cases
      { initialPatientState with
        workupThyroid := true
        workupParasites := true }).2.2.1 ⟨rfl, rfl⟩
    rw [h]
    decide

/-- C9: the workup toggle preserves mutual exclusion: checking the
all-excluded box clears all nine finding flags, checking any finding box
clears the all-excluded flag, and any toggle preserves the invariant that
all-excluded implies no finding flag set. -/
theorem toggleWorkupItem_mutual_exclusion (p : PatientState) :
    ((toggleWorkupItem WorkupField.allNegative true p).workupAllNegative = true ∧
     (toggleWorkupItem WorkupField.allNegative true p).workupSmear = false ∧
     (toggleWorkupItem WorkupField.allNegative true p).workupHemolysis = false ∧
     (toggleWorkupItem WorkupField.allNegative true p).workupInflammation = false ∧
     (toggleWorkupItem WorkupField.allNegative true p).workupB12Folate = false ∧
     (toggleWorkupItem WorkupField.allNegative true p).workupLiver = false ∧
     (toggleWorkupItem WorkupField.allNegative true p).workupThyroid = false ∧
     (toggleWorkupItem WorkupField.allNegative true p).workupParathyroid = false ∧
     (toggleWorkupItem WorkupField.allNegative true p).workupMyeloma = false ∧
     (toggleWorkupItem WorkupField.allNegative true p).workupParasites = false) ∧
    (∀ f : WorkupField, f ≠ WorkupField.allNegative →
      (toggleWorkupItem f true p).workupAllNegative = false) ∧
    (∀ (f : WorkupField) (v : Bool),
      workupInvariant p → workupInvariant (toggleWorkupItem f v p)) := by
  refine ⟨?_, ?_, ?_⟩
  · simp [toggleWorkupItem, setWorkupField]
  · intro f hf
    cases f <;> simp_all [toggleWorkupItem, setWorkupField]
  · intro f v hinv
    cases f <;> cases v <;>
      simp_all [toggleWorkupItem, setWorkupField, workupInvariant]

/-- C9 witness: starting from the all-excluded state, checking the smear
finding clears all-excluded and restores the invariant; checking all-excluded
on a state with findings clears them. -/
theorem toggleWorkupItem_mutual_exclusion_witness :
    (toggleWorkupItem WorkupField.smear true
      { initialPatientState with workupAllNegative := true }).workupAllNegative = false ∧
    workupInvariant (toggleWorkupItem WorkupField.smear true
      { initialPatientState with workupAllNegative := true }) ∧
    (toggleWorkupItem WorkupField.allNegative true
      { initialPatientState with workupMyeloma := true }).workupMyeloma = false :=
  ⟨(toggleWorkupItem_mutual_exclusion
      { initialPatientState with workupAllNegative := true }).2.1 WorkupField.smear (by decide),
   (toggleWorkupItem_mutual_exclusion
      { initialPatientState with workupAllNegative := true }).2.2 WorkupField.smear true
      (by decide),
   (toggleWorkupItem_mutual_exclusion
      { initialPatientState with workupMyeloma := true }).1.2.2.2.2.2.2.2.1⟩
